import Mathlib

/-!
Verification of the per-symbol scheduler and trading loop of
`directionalscalper/core/strategies/bybit/old/multi/bybit_qs.py`
(class `BybitQSStrategy`).

The development shallowly embeds the relevant parts of the Python source:
  * the per-symbol lock registry used by `BybitQSStrategy.run`
    (module-level `symbol_locks` plus `threading.Lock.acquire(blocking=False)`),
  * the position-snapshot builder (`position_details` accumulation loop),
  * the best-ask / best-bid last-known fallback,
  * the equity refresh gate,
  * the take-profit placement gate, and
  * one iteration of the `while True` loop of `run_single_symbol`,
    with external collaborators (exchange, metrics provider, base-class
    helpers) supplied as oracle inputs.

Prices, quantities and wall-clock times are modelled as rationals;
Python `None` becomes `Option`.
-/

namespace BybitQS

/-! ## Symbol lock registry (`run`, lines 42-58, and `symbol_locks`, line 16)

`run` uppercases its symbol argument (line 43), then — without any
guard around the registry — checks `standardized_symbol not in
symbol_locks` (line 47), stores a freshly created `threading.Lock`
when absent (line 48), and calls
`symbol_locks[standardized_symbol].acquire(blocking=False)` (line 50):
on success it processes the symbol and finally releases
`symbol_locks[standardized_symbol]` (line 55, a fresh dict read), on
failure it only logs and returns (line 58).  We model the registry as
a map from standardized symbols to lock-object identities, every lock
object with its own held flag, and the concurrent workers as an
interleaving transition system in which the membership test, the
creation-and-store, the acquire and the release are separate atomic
steps — exposing the check-then-create race of lines 47-48. -/

/-- Python `str.lower()`, modelled characterwise (ASCII case folding,
which covers the `'buy'` / `'sell'` side strings the loop compares). -/
def pyLower (s : String) : String := ⟨s.data.map Char.toLower⟩

/-- Python `str.upper()`, modelled characterwise (ASCII case folding,
which covers exchange symbol names such as `btcusdt`). -/
def pyUpper (s : String) : String := ⟨s.data.map Char.toUpper⟩

/-- `standardized_symbol = symbol.upper()` (line 43). -/
def standardized_symbol (symbol : String) : String := pyUpper symbol

/-- One worker's program counter through `run` (lines 47-58). -/
inductive RunPC where
  | atCheck            -- about to evaluate line 47's membership test
  | atCreate           -- saw the key absent; about to execute line 48
  | atAcquire          -- about to execute line 50's dict lookup and acquire
  | holding (l : Nat)  -- acquired lock object `l`; running run_single_symbol
  | doneProcessed      -- released (line 55) and returned
  | doneSkipped        -- acquire returned False; returned as a no-op (line 58)
deriving DecidableEq, Repr

/-- Global state of `n` workers racing through `run`: `symbol_locks`
maps a standardized symbol to the identity of the `threading.Lock`
object currently stored under that key (lock objects are numbered in
allocation order by `nextLock`), and each lock object carries its own
held flag. -/
structure RaceSystem (n : Nat) where
  registry : String → Option Nat
  nextLock : Nat
  lockHeld : Nat → Bool
  pc : Fin n → RunPC

/-- Interleaving semantics of lines 47-58; `syms i` is the raw symbol
argument of worker `i`.  Each step is ONE atomic dict or lock
operation, so the unguarded check-then-create of lines 47-48 is NOT
atomic: two workers can both pass the membership test, then each
create and store its own `threading.Lock` (the second store overwrites
the first).  The line-50 acquire and the line-55 release both re-read
the dict and operate on whatever object is stored at that moment —
the released object need not be the one this worker acquired. -/
inductive RaceStep (syms : Fin n → String) :
    RaceSystem n → RaceSystem n → Prop where
  | checkPresent {st : RaceSystem n} (i : Fin n) (l : Nat)
      (hpc : st.pc i = RunPC.atCheck)
      (hreg : st.registry (standardized_symbol (syms i)) = some l) :
      RaceStep syms st
        { st with pc := fun j => if j = i then RunPC.atAcquire else st.pc j }
  | checkAbsent {st : RaceSystem n} (i : Fin n)
      (hpc : st.pc i = RunPC.atCheck)
      (hreg : st.registry (standardized_symbol (syms i)) = none) :
      RaceStep syms st
        { st with pc := fun j => if j = i then RunPC.atCreate else st.pc j }
  | createLock {st : RaceSystem n} (i : Fin n)
      (hpc : st.pc i = RunPC.atCreate) :
      RaceStep syms st
        { st with
          registry := fun s =>
            if s = standardized_symbol (syms i) then some st.nextLock
            else st.registry s
          nextLock := st.nextLock + 1
          lockHeld := fun l => if l = st.nextLock then false else st.lockHeld l
          pc := fun j => if j = i then RunPC.atAcquire else st.pc j }
  | acquireSuccess {st : RaceSystem n} (i : Fin n) (l : Nat)
      (hpc : st.pc i = RunPC.atAcquire)
      (hreg : st.registry (standardized_symbol (syms i)) = some l)
      (hfree : st.lockHeld l = false) :
      RaceStep syms st
        { st with
          lockHeld := fun m => if m = l then true else st.lockHeld m
          pc := fun j => if j = i then RunPC.holding l else st.pc j }
  | acquireFail {st : RaceSystem n} (i : Fin n) (l : Nat)
      (hpc : st.pc i = RunPC.atAcquire)
      (hreg : st.registry (standardized_symbol (syms i)) = some l)
      (hheld : st.lockHeld l = true) :
      RaceStep syms st
        { st with pc := fun j => if j = i then RunPC.doneSkipped else st.pc j }
  | releaseLock {st : RaceSystem n} (i : Fin n) (l l2 : Nat)
      (hpc : st.pc i = RunPC.holding l)
      (hreg : st.registry (standardized_symbol (syms i)) = some l2) :
      RaceStep syms st
        { st with
          lockHeld := fun m => if m = l2 then false else st.lockHeld m
          pc := fun j => if j = i then RunPC.doneProcessed else st.pc j }

/-- Initial state: `symbol_locks = {}` (line 16), every worker about to
execute line 47. -/
def initRaceSystem (n : Nat) : RaceSystem n :=
  ⟨fun _ => none, 0, fun _ => false, fun _ => RunPC.atCheck⟩

/-- States reachable by interleaving the workers' steps. -/
def RaceReachable (syms : Fin n → String) (st : RaceSystem n) : Prop :=
  Relation.ReflTransGen (RaceStep syms) (initRaceSystem n) st

/-- A single step moves a worker into `doneSkipped` only from
`atAcquire` (the failed non-blocking acquire of line 50): a skipped
worker was never `holding` and never waited. -/
theorem raceSkipped_from_atAcquire (syms : Fin n → String)
    {st st' : RaceSystem n} (hstep : RaceStep syms st st') (i : Fin n)
    (h' : st'.pc i = RunPC.doneSkipped) (h : st.pc i ≠ RunPC.doneSkipped) :
    st.pc i = RunPC.atAcquire := by
  cases hstep with
  | checkPresent j l hpc hreg =>
      simp only at h'
      by_cases hij : i = j
      · subst hij; simp at h'
      · simp only [hij, if_false] at h'; exact absurd h' h
  | checkAbsent j hpc hreg =>
      simp only at h'
      by_cases hij : i = j
      · subst hij; simp at h'
      · simp only [hij, if_false] at h'; exact absurd h' h
  | createLock j hpc =>
      simp only at h'
      by_cases hij : i = j
      · subst hij; simp at h'
      · simp only [hij, if_false] at h'; exact absurd h' h
  | acquireSuccess j l hpc hreg hfree =>
      simp only at h'
      by_cases hij : i = j
      · subst hij; simp at h'
      · simp only [hij, if_false] at h'; exact absurd h' h
  | acquireFail j l hpc hreg hheld =>
      simp only at h'
      by_cases hij : i = j
      · subst hij; exact hpc
      · simp only [hij, if_false] at h'; exact absurd h' h
  | releaseLock j l l2 hpc hreg =>
      simp only at h'
      by_cases hij : i = j
      · subst hij; simp at h'
      · simp only [hij, if_false] at h'; exact absurd h' h

/-- Two workers dispatching the same symbol concurrently. -/
def sameSyms : Fin 2 → String := fun _ => "BTCUSDT"

/-- Two workers dispatching the same symbol written in different
letter cases. -/
def caseSyms : Fin 2 → String := fun k => if k = 0 then "btcusdt" else "BTCUSDT"

/-- C1 (code bug): the unguarded lazy creation of lines 47-48 breaks
the claimed per-symbol mutual exclusion.  There is a reachable
interleaving of two `run` invocations for the same symbol in which
both workers pass the line-47 membership test, each creates and stores
its own `threading.Lock`, and both non-blocking acquires succeed on
DISTINCT lock objects — both workers then run `run_single_symbol`
concurrently.  The no-blocking part of the claim does hold: a failed
acquire moves a worker directly to the terminal skipped phase. -/
theorem C1_lock_creation_race :
    (∃ st : RaceSystem 2, RaceReachable sameSyms st ∧
      st.pc 0 = RunPC.holding 0 ∧ st.pc 1 = RunPC.holding 1 ∧
      standardized_symbol (sameSyms 0) = standardized_symbol (sameSyms 1)) ∧
    (∀ (st st' : RaceSystem 2), RaceStep sameSyms st st' →
      ∀ i : Fin 2, st'.pc i = RunPC.doneSkipped →
        st.pc i ≠ RunPC.doneSkipped → st.pc i = RunPC.atAcquire) := by
  constructor
  · have t0 : RaceReachable sameSyms (initRaceSystem 2) :=
      Relation.ReflTransGen.refl
    have t1 := Relation.ReflTransGen.tail t0
      (@RaceStep.checkAbsent 2 sameSyms (initRaceSystem 2) 0 rfl rfl)
    have t2 := Relation.ReflTransGen.tail t1
      (@RaceStep.checkAbsent 2 sameSyms _ 1 rfl rfl)
    have t3 := Relation.ReflTransGen.tail t2
      (@RaceStep.createLock 2 sameSyms _ 0 rfl)
    have t4 := Relation.ReflTransGen.tail t3
      (@RaceStep.acquireSuccess 2 sameSyms _ 0 0 rfl rfl rfl)
    have t5 := Relation.ReflTransGen.tail t4
      (@RaceStep.createLock 2 sameSyms _ 1 rfl)
    have t6 := Relation.ReflTransGen.tail t5
      (@RaceStep.acquireSuccess 2 sameSyms _ 1 1 rfl rfl rfl)
    exact ⟨_, t6, rfl, rfl, rfl⟩
  · intro st st' hstep i h' h
    exact raceSkipped_from_atAcquire sameSyms hstep i h' h

/-- C10 (code bug): `run` does key the registry by the uppercased
symbol, so case-variant invocations use the SAME key; but under the
lines 47-48 creation race the two invocations can install and acquire
DISTINCT lock objects under that key, and a reachable interleaving has
both processing the symbol at once — refuting the claimed "contend on
the same lock, at most one processes". -/
theorem C10_case_variant_race :
    standardized_symbol (caseSyms 0) = standardized_symbol (caseSyms 1) ∧
    (∀ s : String, standardized_symbol s = pyUpper s) ∧
    (∃ st : RaceSystem 2, RaceReachable caseSyms st ∧
      st.pc 0 = RunPC.holding 0 ∧ st.pc 1 = RunPC.holding 1) := by
  refine ⟨by decide, fun s => rfl, ?_⟩
  have t0 : RaceReachable caseSyms (initRaceSystem 2) :=
    Relation.ReflTransGen.refl
  have t1 := Relation.ReflTransGen.tail t0
    (@RaceStep.checkAbsent 2 caseSyms (initRaceSystem 2) 0 rfl rfl)
  have t2 := Relation.ReflTransGen.tail t1
    (@RaceStep.checkAbsent 2 caseSyms _ 1 rfl rfl)
  have t3 := Relation.ReflTransGen.tail t2
    (@RaceStep.createLock 2 caseSyms _ 0 rfl)
  have t4 := Relation.ReflTransGen.tail t3
    (@RaceStep.acquireSuccess 2 caseSyms _ 0 0 rfl (by decide) rfl)
  have t5 := Relation.ReflTransGen.tail t4
    (@RaceStep.createLock 2 caseSyms _ 1 rfl)
  have t6 := Relation.ReflTransGen.tail t5
    (@RaceStep.acquireSuccess 2 caseSyms _ 1 1 rfl (by decide) rfl)
  exact ⟨_, t6, rfl, rfl⟩

/-! ## Position snapshot builder (`run_single_symbol`, lines 143-167)

The loop over `open_position_data` builds `position_details`, a dict
from symbol (contract suffix after a colon stripped) to per-side
`{qty, avg_price}` entries.  Records missing one of `size`, `side` or
`avgPrice` are skipped.  For each kept record, the symbol's entry is
initialized (both sides at `{qty: 0, avg_price: 0}`) if absent, then the
matching side's quantity is incremented by `size` and its average price
is overwritten with the record's `avgPrice`.  We model the dict as an
association list keyed by symbol in insertion order. -/

/-- A raw record of `open_position_data`: `position['info']` with the
three fields the loop reads; a `none` field models a missing dict key. -/
structure RawPosition where
  symbol : String
  size : Option ℚ
  side : Option String
  avgPrice : Option ℚ
deriving Repr

/-- One side of `position_details[symbol]`: `{'qty': ..., 'avg_price': ...}`. -/
structure SideDetail where
  qty : ℚ
  avg_price : ℚ
deriving Repr, DecidableEq

/-- `position_details[symbol]`: the `long` and `short` sub-dicts. -/
structure SymbolDetail where
  long : SideDetail
  short : SideDetail
deriving Repr, DecidableEq

/-- `info.get('symbol', '').split(':')[0]` (line 147): everything before
the first colon, modelled characterwise. -/
def positionSymbolOf (raw : String) : String :=
  ⟨raw.data.takeWhile (· != ':')⟩

/-- The fresh entry of line 157:
`{'long': {'qty': 0, 'avg_price': 0}, 'short': {'qty': 0, 'avg_price': 0}}`. -/
def freshSymbolDetail : SymbolDetail := ⟨⟨0, 0⟩, ⟨0, 0⟩⟩

/-- Dict lookup on the association list. -/
def detailsFind : List (String × SymbolDetail) → String → Option SymbolDetail
  | [], _ => none
  | e :: rest, sym => if e.1 = sym then some e.2 else detailsFind rest sym

/-- Overwrite the entry at key `sym` by `f`. -/
def detailsModify (details : List (String × SymbolDetail)) (sym : String)
    (f : SymbolDetail → SymbolDetail) : List (String × SymbolDetail) :=
  details.map fun e => if e.1 = sym then (e.1, f e.2) else e

/-- One pass of the `for position in open_position_data` body
(lines 145-167). -/
def positionDetailsStep (details : List (String × SymbolDetail))
    (pos : RawPosition) : List (String × SymbolDetail) :=
  let position_symbol := positionSymbolOf pos.symbol
  match pos.size, pos.side, pos.avgPrice with
  | some size, some side, some avg_price =>
      let side := pyLower side
      let details :=
        if (detailsFind details position_symbol).isSome then details
        else details ++ [(position_symbol, freshSymbolDetail)]
      if side = "buy" then
        detailsModify details position_symbol fun d =>
          { d with long := ⟨d.long.qty + size, avg_price⟩ }
      else if side = "sell" then
        detailsModify details position_symbol fun d =>
          { d with short := ⟨d.short.qty + size, avg_price⟩ }
      else details
  | _, _, _ => details

/-- The whole loop: `position_details = {}` then the `for` loop. -/
def buildPositionDetails (open_position_data : List RawPosition) :
    List (String × SymbolDetail) :=
  open_position_data.foldl positionDetailsStep []

/-- `position_details.get(symbol, {}).get('long', {}).get('qty', 0)`
(line 270). -/
def long_pos_qty_of (details : List (String × SymbolDetail))
    (sym : String) : ℚ :=
  ((detailsFind details sym).map (·.long.qty)).getD 0

/-- `position_details.get(symbol, {}).get('short', {}).get('qty', 0)`
(line 271). -/
def short_pos_qty_of (details : List (String × SymbolDetail))
    (sym : String) : ℚ :=
  ((detailsFind details sym).map (·.short.qty)).getD 0

/-- `position_details.get(symbol, {}).get('long', {}).get('avg_price', None)`
(line 317): `None` exactly when the symbol has no entry, because a
present entry always carries a numeric `avg_price`. -/
def long_pos_price_of (details : List (String × SymbolDetail))
    (sym : String) : Option ℚ :=
  (detailsFind details sym).map (·.long.avg_price)

/-- `position_details.get(symbol, {}).get('short', {}).get('avg_price', None)`
(line 318). -/
def short_pos_price_of (details : List (String × SymbolDetail))
    (sym : String) : Option ℚ :=
  (detailsFind details sym).map (·.short.avg_price)

/-- Side of a position; the raw records carry `'buy'` / `'sell'`. -/
inductive PositionSide where
  | long
  | short
deriving DecidableEq, Repr

/-- The `info['side']` string that routes a record to a given side. -/
def sideString : PositionSide → String
  | .long => "buy"
  | .short => "sell"

/-- Quantity of the given side of an entry. -/
def sideQty (d : SymbolDetail) : PositionSide → ℚ
  | .long => d.long.qty
  | .short => d.short.qty

/-- Average price of the given side of an entry. -/
def sideAvgPrice (d : SymbolDetail) : PositionSide → ℚ
  | .long => d.long.avg_price
  | .short => d.short.avg_price

theorem toLower_buy : pyLower "buy" = "buy" := by decide

theorem toLower_sell : pyLower "sell" = "sell" := by decide

theorem sell_ne_buy : ("sell" : String) ≠ "buy" := by decide

/-- Per-side quantity accessor, generalizing lines 270-271. -/
def sidePosQtyOf (details : List (String × SymbolDetail)) (sym : String)
    (sd : PositionSide) : ℚ :=
  ((detailsFind details sym).map (fun d => sideQty d sd)).getD 0

/-- Per-side average-price accessor, generalizing lines 317-318. -/
def sidePosPriceOf (details : List (String × SymbolDetail)) (sym : String)
    (sd : PositionSide) : Option ℚ :=
  (detailsFind details sym).map (fun d => sideAvgPrice d sd)

/-- C4: two raw records for the same symbol and side, with quantities
`q1`, `q2 ≥ 0` and average prices `p1`, `p2` processed in that order,
produce a snapshot entry with quantity `q1 + q2` and average price `p2`
(last write wins, not volume-weighted). -/
theorem C4_snapshot_accumulation (sym : String) (sd : PositionSide)
    (q1 q2 p1 p2 : ℚ) (hq1 : 0 ≤ q1) (hq2 : 0 ≤ q2) :
    sidePosQtyOf
        (buildPositionDetails
          [⟨sym, some q1, some (sideString sd), some p1⟩,
           ⟨sym, some q2, some (sideString sd), some p2⟩])
        (positionSymbolOf sym) sd = q1 + q2 ∧
    sidePosPriceOf
        (buildPositionDetails
          [⟨sym, some q1, some (sideString sd), some p1⟩,
           ⟨sym, some q2, some (sideString sd), some p2⟩])
        (positionSymbolOf sym) sd = some p2 := by
  cases sd <;>
    constructor <;>
      simp [buildPositionDetails, positionDetailsStep, detailsFind,
        detailsModify, freshSymbolDetail, sideString, toLower_buy,
        toLower_sell, sell_ne_buy, sideQty, sideAvgPrice, sidePosQtyOf,
        sidePosPriceOf]

/-- C4 witness: concrete instance with `q1 = 2`, `q2 = 3`, `p1 = 10`,
`p2 = 20` on the long side of `BTCUSDT`. -/
theorem C4_snapshot_accumulation_witness :
    (0:ℚ) ≤ 2 ∧ (0:ℚ) ≤ 3 ∧
    (sidePosQtyOf
        (buildPositionDetails
          [⟨"BTCUSDT", some 2, some (sideString .long), some 10⟩,
           ⟨"BTCUSDT", some 3, some (sideString .long), some 20⟩])
        (positionSymbolOf "BTCUSDT") .long = 2 + 3 ∧
     sidePosPriceOf
        (buildPositionDetails
          [⟨"BTCUSDT", some 2, some (sideString .long), some 10⟩,
           ⟨"BTCUSDT", some 3, some (sideString .long), some 20⟩])
        (positionSymbolOf "BTCUSDT") .long = some 20) :=
  ⟨by norm_num, by norm_num,
   C4_snapshot_accumulation "BTCUSDT" .long 2 3 10 20 (by norm_num)
     (by norm_num)⟩

/-- C6 counterexample: a single long record for `BTCUSDT` (qty 1,
price 100) leaves the short side with quantity 0, yet the short average
entry price read the way line 318 reads it is the numeric sentinel
`some 0`, not `none` — so the downstream `is not None` test of line 335
treats the empty short side as having a position price. -/
theorem C6_counterexample :
    short_pos_qty_of
        (buildPositionDetails [⟨"BTCUSDT", some 1, some "buy", some 100⟩])
        "BTCUSDT" = 0 ∧
    short_pos_price_of
        (buildPositionDetails [⟨"BTCUSDT", some 1, some "buy", some 100⟩])
        "BTCUSDT" = some 0 ∧
    (some (0:ℚ) ≠ none) := by
  refine ⟨?_, ?_, ?_⟩ <;> decide

/-- C6 amended: the average entry price read from the snapshot is
absent (`None`) exactly when the symbol has no entry in the snapshot at
all; a zero-quantity side of a present symbol instead carries a numeric
sentinel (`0` from the initialization of line 157, or a stale record
price), which downstream presence tests treat as a present price. -/
theorem C6_zero_qty_price_sentinel (records : List RawPosition)
    (sym : String) :
    (long_pos_price_of (buildPositionDetails records) sym = none ↔
      detailsFind (buildPositionDetails records) sym = none) ∧
    (short_pos_price_of (buildPositionDetails records) sym = none ↔
      detailsFind (buildPositionDetails records) sym = none) ∧
    freshSymbolDetail.long.avg_price = 0 ∧
    freshSymbolDetail.short.avg_price = 0 := by
  refine ⟨?_, ?_, rfl, rfl⟩ <;>
    · simp only [long_pos_price_of, short_pos_price_of]
      cases detailsFind (buildPositionDetails records) sym <;> simp

/-! ## Best ask / best bid with last-known fallback (lines 22-23, 207-219)

`self.last_known_ask` / `self.last_known_bid` start as empty dicts in
`__init__`.  Each iteration reads the live orderbook: if the side is
present and non-empty, the top-of-book price is reported and recorded;
otherwise `dict.get(symbol)` reports the last recorded value, `None`
when nothing was ever recorded. -/

/-- The result of `self.exchange.get_orderbook(symbol)`: each side is a
list of `(price, size)` levels; `none` models a missing dict key. -/
structure OrderBook where
  asks : Option (List (ℚ × ℚ))
  bids : Option (List (ℚ × ℚ))
deriving Repr

/-- `order_book['asks'][0][0]` when `'asks' in order_book` and the list
is non-empty, else `None`. -/
def liveTopAsk (ob : OrderBook) : Option ℚ :=
  match ob.asks with
  | some (a :: _) => some a.1
  | _ => none

/-- `order_book['bids'][0][0]` when `'bids' in order_book` and the list
is non-empty, else `None`. -/
def liveTopBid (ob : OrderBook) : Option ℚ :=
  match ob.bids with
  | some (b :: _) => some b.1
  | _ => none

/-- Lines 207-212: returns `(best_ask_price, last_known_ask')`. -/
def handleBestAsk (last_known_ask : String → Option ℚ) (symbol : String)
    (ob : OrderBook) : Option ℚ × (String → Option ℚ) :=
  match ob.asks with
  | some (a :: _) =>
      (some a.1, fun s => if s = symbol then some a.1 else last_known_ask s)
  | _ => (last_known_ask symbol, last_known_ask)

/-- Lines 214-219: returns `(best_bid_price, last_known_bid')`. -/
def handleBestBid (last_known_bid : String → Option ℚ) (symbol : String)
    (ob : OrderBook) : Option ℚ × (String → Option ℚ) :=
  match ob.bids with
  | some (b :: _) =>
      (some b.1, fun s => if s = symbol then some b.1 else last_known_bid s)
  | _ => (last_known_bid symbol, last_known_bid)

/-- `orFallback live fallback` is the value the two handler blocks
report: the live top-of-book when present, else the fallback. -/
def orFallback (live fallback : Option ℚ) : Option ℚ :=
  match live with
  | some v => some v
  | none => fallback

/-- Iterating one of the handler blocks over successive orderbook
reads, collecting the reported price of every iteration. -/
def fallbackTraceFrom
    (step : (String → Option ℚ) → String → OrderBook →
      Option ℚ × (String → Option ℚ))
    (m : String → Option ℚ) (symbol : String) :
    List OrderBook → List (Option ℚ)
  | [] => []
  | ob :: rest =>
      let r := step m symbol ob
      r.1 :: fallbackTraceFrom step r.2 symbol rest

/-- The reported asks of a run of iterations, starting from the
`__init__` state `last_known_ask = {}`. -/
def askTrace (symbol : String) (obs : List OrderBook) : List (Option ℚ) :=
  fallbackTraceFrom handleBestAsk (fun _ => none) symbol obs

/-- The reported bids of a run of iterations, starting from
`last_known_bid = {}`. -/
def bidTrace (symbol : String) (obs : List OrderBook) : List (Option ℚ) :=
  fallbackTraceFrom handleBestBid (fun _ => none) symbol obs

/-- The most recent live value among a list of top-of-book reads,
starting from a given fallback. -/
def lastLiveFrom (init : Option ℚ) (tops : List (Option ℚ)) : Option ℚ :=
  tops.foldl (fun acc t => orFallback t acc) init

/-- The most recent live value among a list of top-of-book reads. -/
def lastLive (tops : List (Option ℚ)) : Option ℚ := lastLiveFrom none tops

theorem handleBestAsk_fst (m : String → Option ℚ) (symbol : String)
    (ob : OrderBook) :
    (handleBestAsk m symbol ob).1 = orFallback (liveTopAsk ob) (m symbol) := by
  rcases ob with ⟨asks, bids⟩
  rcases asks with _ | ⟨a, rest⟩ <;>
    simp [handleBestAsk, liveTopAsk, orFallback]

theorem handleBestAsk_snd (m : String → Option ℚ) (symbol : String)
    (ob : OrderBook) :
    (handleBestAsk m symbol ob).2 symbol =
      orFallback (liveTopAsk ob) (m symbol) := by
  rcases ob with ⟨asks, bids⟩
  rcases asks with _ | ⟨a, rest⟩ <;>
    simp [handleBestAsk, liveTopAsk, orFallback]

theorem handleBestBid_fst (m : String → Option ℚ) (symbol : String)
    (ob : OrderBook) :
    (handleBestBid m symbol ob).1 = orFallback (liveTopBid ob) (m symbol) := by
  rcases ob with ⟨asks, bids⟩
  rcases bids with _ | ⟨b, rest⟩ <;>
    simp [handleBestBid, liveTopBid, orFallback]

theorem handleBestBid_snd (m : String → Option ℚ) (symbol : String)
    (ob : OrderBook) :
    (handleBestBid m symbol ob).2 symbol =
      orFallback (liveTopBid ob) (m symbol) := by
  rcases ob with ⟨asks, bids⟩
  rcases bids with _ | ⟨b, rest⟩ <;>
    simp [handleBestBid, liveTopBid, orFallback]

/-- Generic characterization of the handler blocks: the price reported
at iteration `i` is the live top of book if present, else the most
recent live value seen before `i` (from the carried fallback state). -/
theorem fallbackTraceFrom_getElem
    (step : (String → Option ℚ) → String → OrderBook →
      Option ℚ × (String → Option ℚ))
    (top : OrderBook → Option ℚ) (symbol : String)
    (hfst : ∀ m ob, (step m symbol ob).1 = orFallback (top ob) (m symbol))
    (hsnd : ∀ m ob, (step m symbol ob).2 symbol = orFallback (top ob) (m symbol))
    (obs : List OrderBook) :
    ∀ (m : String → Option ℚ) (i : Nat) (ob : OrderBook),
      obs[i]? = some ob →
      (fallbackTraceFrom step m symbol obs)[i]? =
        some (orFallback (top ob)
          (lastLiveFrom (m symbol) ((obs.take i).map top))) := by
  induction obs with
  | nil => intro m i ob h; simp at h
  | cons b rest ih =>
      intro m i ob h
      cases i with
      | zero =>
          simp at h
          subst h
          simp [fallbackTraceFrom, hfst, lastLiveFrom]
      | succ i =>
          simp only [List.getElem?_cons_succ] at h
          have := ih ((step m symbol b).2) i ob h
          simp only [fallbackTraceFrom, List.getElem?_cons_succ]
          rw [this, hsnd]
          simp [lastLiveFrom, List.take_succ_cons]

/-- The `last_known_ask[symbol]` value after a run of iterations. -/
def lastKnownAskAfter (symbol : String) (obs : List OrderBook) : Option ℚ :=
  (obs.foldl (fun m ob => (handleBestAsk m symbol ob).2) (fun _ => none)) symbol

/-- The `last_known_bid[symbol]` value after a run of iterations. -/
def lastKnownBidAfter (symbol : String) (obs : List OrderBook) : Option ℚ :=
  (obs.foldl (fun m ob => (handleBestBid m symbol ob).2) (fun _ => none)) symbol

/-- Generic: the carried fallback state at `symbol` after processing a
run of orderbooks is the most recent live value observed. -/
theorem foldl_snd_lastLive
    (step : (String → Option ℚ) → String → OrderBook →
      Option ℚ × (String → Option ℚ))
    (top : OrderBook → Option ℚ) (symbol : String)
    (hsnd : ∀ m ob, (step m symbol ob).2 symbol = orFallback (top ob) (m symbol))
    (obs : List OrderBook) :
    ∀ m : String → Option ℚ,
      (obs.foldl (fun m ob => (step m symbol ob).2) m) symbol =
        lastLiveFrom (m symbol) (obs.map top) := by
  induction obs with
  | nil => intro m; simp [lastLiveFrom]
  | cons b rest ih =>
      intro m
      simp only [List.foldl_cons, List.map_cons]
      rw [ih, hsnd]
      simp [lastLiveFrom]

/-- C7: for every iteration `i` of a run of orderbook reads, the
reported best ask (resp. bid) is the live top of book if that side is
non-empty; otherwise it is the most recently observed live value of
earlier iterations, and `none` if no live value was ever observed (no
zero sentinel); moreover, the last-known registers hold exactly the
most recent live value of the whole run. -/
theorem C7_orderbook_fallback (symbol : String) (obs : List OrderBook)
    (i : Nat) (ob : OrderBook) (h : obs[i]? = some ob) :
    (askTrace symbol obs)[i]? =
      some (orFallback (liveTopAsk ob)
        (lastLive ((obs.take i).map liveTopAsk))) ∧
    (bidTrace symbol obs)[i]? =
      some (orFallback (liveTopBid ob)
        (lastLive ((obs.take i).map liveTopBid))) ∧
    lastKnownAskAfter symbol obs = lastLive (obs.map liveTopAsk) ∧
    lastKnownBidAfter symbol obs = lastLive (obs.map liveTopBid) := by
  refine ⟨?_, ?_, ?_, ?_⟩
  · exact fallbackTraceFrom_getElem handleBestAsk liveTopAsk symbol
      (fun m ob => handleBestAsk_fst m symbol ob)
      (fun m ob => handleBestAsk_snd m symbol ob) obs _ i ob h
  · exact fallbackTraceFrom_getElem handleBestBid liveTopBid symbol
      (fun m ob => handleBestBid_fst m symbol ob)
      (fun m ob => handleBestBid_snd m symbol ob) obs _ i ob h
  · exact foldl_snd_lastLive handleBestAsk liveTopAsk symbol
      (fun m ob => handleBestAsk_snd m symbol ob) obs _
  · exact foldl_snd_lastLive handleBestBid liveTopBid symbol
      (fun m ob => handleBestBid_snd m symbol ob) obs _

/-- C7 witness: a live ask/bid is observed at iteration 0, the book is
entirely empty at iteration 1; the reported values at iteration 1 are
the live prices from iteration 0. -/
theorem C7_orderbook_fallback_witness :
    ([⟨some [((100:ℚ), 1)], some [((99:ℚ), 2)]⟩,
      (⟨none, none⟩ : OrderBook)])[1]? = some (⟨none, none⟩ : OrderBook) ∧
    ((askTrace "BTCUSDT"
        [⟨some [((100:ℚ), 1)], some [((99:ℚ), 2)]⟩, ⟨none, none⟩])[1]? =
      some (orFallback (liveTopAsk ⟨none, none⟩)
        (lastLive (([⟨some [((100:ℚ), 1)], some [((99:ℚ), 2)]⟩,
          (⟨none, none⟩ : OrderBook)].take 1).map liveTopAsk))) ∧
     (bidTrace "BTCUSDT"
        [⟨some [((100:ℚ), 1)], some [((99:ℚ), 2)]⟩, ⟨none, none⟩])[1]? =
      some (orFallback (liveTopBid ⟨none, none⟩)
        (lastLive (([⟨some [((100:ℚ), 1)], some [((99:ℚ), 2)]⟩,
          (⟨none, none⟩ : OrderBook)].take 1).map liveTopBid))) ∧
     lastKnownAskAfter "BTCUSDT"
        [⟨some [((100:ℚ), 1)], some [((99:ℚ), 2)]⟩, ⟨none, none⟩] =
      lastLive ([⟨some [((100:ℚ), 1)], some [((99:ℚ), 2)]⟩,
        (⟨none, none⟩ : OrderBook)].map liveTopAsk) ∧
     lastKnownBidAfter "BTCUSDT"
        [⟨some [((100:ℚ), 1)], some [((99:ℚ), 2)]⟩, ⟨none, none⟩] =
      lastLive ([⟨some [((100:ℚ), 1)], some [((99:ℚ), 2)]⟩,
        (⟨none, none⟩ : OrderBook)].map liveTopBid)) :=
  ⟨rfl,
   C7_orderbook_fallback "BTCUSDT"
     [⟨some [((100:ℚ), 1)], some [((99:ℚ), 2)]⟩, ⟨none, none⟩]
     1 ⟨none, none⟩ rfl⟩

/-! ## Take-profit placement gate (lines 395 and 400)

A side's take-profit order is placed only when that side has positive
quantity, a computed non-null target, and zero existing open
take-profit orders on that side. -/

/-- The gating condition of lines 395 / 400:
`pos_qty > 0 and take_profit is not None and tp_count == 0`. -/
def placeTPGate (pos_qty : ℚ) (take_profit : Option ℚ) (tp_count : Nat) :
    Bool :=
  decide (0 < pos_qty) && take_profit.isSome && decide (tp_count = 0)

/-- Events affecting the number of open take-profit orders of one
(symbol, side): an iteration of the Managing branch (which places one
order exactly when `placeTPGate` holds; the reschedule path of
`update_take_profit_spread_bybit` cancels and reissues, leaving the
count unchanged), or an exchange-side fill/cancel that removes one. -/
inductive TPEvent where
  | iterate (pos_qty : ℚ) (take_profit : Option ℚ)
  | consume
deriving Repr

/-- Evolution of the open-TP-order count of one (symbol, side). -/
def tpCountStep (c : Nat) : TPEvent → Nat
  | .iterate pos_qty take_profit =>
      if placeTPGate pos_qty take_profit c then c + 1 else c
  | .consume => c - 1

/-- The count after a sequence of events, starting from the clean state
established by `cancel_all_orders_for_symbol_bybit` (line 86). -/
def tpCountAfter (events : List TPEvent) : Nat :=
  events.foldl tpCountStep 0

theorem tpCountStep_le_one {c : Nat} (hc : c ≤ 1) (e : TPEvent) :
    tpCountStep c e ≤ 1 := by
  cases e with
  | iterate pos_qty take_profit =>
      simp only [tpCountStep]
      by_cases h : placeTPGate pos_qty take_profit c = true
      · have hc0 : c = 0 := by
          have := h
          simp only [placeTPGate, Bool.and_eq_true, decide_eq_true_eq] at this
          exact this.2
        subst hc0
        simp [h]
      · simp [h, hc]
  | consume =>
      simp only [tpCountStep]
      omega

/-- C3: after any sequence of iterations (and exchange-side
fills/cancels), the open take-profit order count of a (symbol, side)
never exceeds 1, and an iteration places an order only when the side
has quantity > 0, a non-null target, and zero existing open TP orders. -/
theorem C3_tp_singleton (events : List TPEvent) :
    tpCountAfter events ≤ 1 ∧
    ∀ (pos_qty : ℚ) (take_profit : Option ℚ) (c : Nat),
      placeTPGate pos_qty take_profit c = true →
      0 < pos_qty ∧ take_profit ≠ none ∧ c = 0 := by
  constructor
  · have key : ∀ (evs : List TPEvent) (c : Nat), c ≤ 1 →
        evs.foldl tpCountStep c ≤ 1 := by
      intro evs
      induction evs with
      | nil => intro c hc; simpa using hc
      | cons e rest ih =>
          intro c hc
          simp only [List.foldl_cons]
          exact ih _ (tpCountStep_le_one hc e)
    exact key events 0 (by norm_num)
  · intro pos_qty take_profit c h
    simp only [placeTPGate, Bool.and_eq_true, decide_eq_true_eq] at h
    refine ⟨h.1.1, ?_, h.2⟩
    have := h.1.2
    cases take_profit with
    | none => simp at this
    | some v => simp

/-- C3 witness: a run of two placement attempts, an exchange-side
fill, and a further attempt keeps the count at most 1. -/
theorem C3_tp_singleton_witness :
    tpCountAfter
      [TPEvent.iterate 5 (some 101), TPEvent.iterate 5 (some 102),
       TPEvent.consume, TPEvent.iterate 5 (some 103)] ≤ 1 :=
  (C3_tp_singleton
    [TPEvent.iterate 5 (some 101), TPEvent.iterate 5 (some 102),
     TPEvent.consume, TPEvent.iterate 5 (some 103)]).1

/-! ## One iteration of the `while True` loop (lines 130-524)

The iteration is embedded as a function from the persistent loop state
and an oracle record of all collaborator responses of that iteration to
the new state, the list of externally visible actions performed (in
program order), and the control outcome (`continue`, `break`, or fall
through to the next iteration).  Out-of-scope collaborators (exchange,
metrics provider, base-class helpers such as
`calculate_take_profits_based_on_spread`, `can_trade_new_symbol`,
`update_take_profit_spread_bybit` and the entry evaluators) are
modelled as oracle inputs, per the spec's external-interface scoping. -/

/-- `s.replace("/", "")` (line 170), modelled characterwise. -/
def removeSlashes (s : String) : String := ⟨s.data.filter (· != '/')⟩

/-- `equity_refresh_interval = 1800` (line 83). -/
def equity_refresh_interval : ℚ := 1800

/-- The metrics dict extracted at lines 255-266 / 452-461. -/
structure Metrics where
  oneMinVol : ℚ
  fiveMinVol : ℚ
  oneMinSpread : ℚ
  fiveMinSpread : ℚ
  trend : String
  mfi : String
  funding : ℚ
  hmaTrend : String
  eriTrend : String
deriving Repr

/-- Configuration attributes read by the loop. -/
structure Config where
  test_orders_enabled : Bool
  dashboard_enabled : Bool
  spoofing_interval : ℚ
deriving Repr

/-- Function-valued collaborators of the base class used to compute the
entry conditions (lines 330-339). -/
structure Collab where
  short_trade_condition : Option ℚ → ℚ → Bool
  long_trade_condition : Option ℚ → ℚ → Bool

/-- Oracle responses of the external collaborators for one iteration. -/
structure IterInput where
  now : ℚ
  open_position_data : List RawPosition
  extracted_open_symbols : List String
  equity_fetch : Option ℚ
  available_fetch : Option ℚ
  blacklisted : Bool
  order_book : OrderBook
  trading_allowed : Bool
  metrics : Metrics
  ma_3_high : ℚ
  ma_3_low : ℚ
  ma_6_high : ℚ
  ma_6_low : ℚ
  take_profit_short : Option ℚ
  take_profit_long : Option ℚ
  tp_order_counts : Nat × Nat
  datetime_now : ℚ
  long_tp_update_result : ℚ
  short_tp_update_result : ℚ

/-- The loop state that persists across iterations of
`run_single_symbol` (locals of lines 64-115 plus the instance dicts and
next-update timestamps of `__init__`). -/
structure LoopState where
  last_equity_fetch_time : ℚ
  total_equity : Option ℚ
  available_equity : Option ℚ
  previous_five_minute_distance : Option ℚ
  last_known_ask : String → Option ℚ
  last_known_bid : String → Option ℚ
  next_long_tp_update : ℚ
  next_short_tp_update : ℚ
  last_cancel_time : ℚ

/-- The state on entering the `while True` loop: equity never fetched
(`last_equity_fetch_time = 0`, line 82; `total_equity = None`, line 66),
no previous spread (line 115), empty last-known dicts (lines 22-23),
and the initial next-update timestamps from `__init__` (lines 28-29). -/
def initLoopState (next_long_init next_short_init : ℚ) : LoopState :=
  { last_equity_fetch_time := 0
    total_equity := none
    available_equity := none
    previous_five_minute_distance := none
    last_known_ask := fun _ => none
    last_known_bid := fun _ => none
    next_long_tp_update := next_long_init
    next_short_tp_update := next_short_init
    last_cancel_time := 0 }

/-- Externally visible actions of one iteration, in program order. -/
inductive Action where
  | fetchOpenPositions
  | fetchOpenOrders
  | fetchEquity
  | sleep (secs : ℚ)
  | fundingCheck
  | fetchPrice
  | fetchOrderbook
  | initSymbol
  | fetchMovingAverages
  | fetchApiData
  | fetchPositionData
  | setLeverageLong
  | setLeverageShort
  | updateDynamicAmounts
  | calcDynamicAmounts
  | printTradeQuantities
  | fetchTPOrderCount
  | spoofingHelper
  | computeTakeProfits (short_pos_price long_pos_price : Option ℚ)
      (five_minute_distance : ℚ) (previous_five_minute_distance : Option ℚ)
  | entryExitEval (should_long should_short : Bool)
      (should_add_to_long should_add_to_short : Bool)
  | placeTP (side : PositionSide) (qty : ℚ) (price : Option ℚ)
  | updateTPSpread (side : PositionSide) (five_minute_distance : ℚ)
      (previous_five_minute_distance : Option ℚ)
  | cancelEntries
  | initialEntryEval (should_long should_short : Bool)
  | publishStatus
  | dashboardWrite
deriving DecidableEq, Repr

/-- Control outcome of one iteration body. -/
inductive IterExit where
  | continued  -- `continue` (line 191)
  | broke      -- `break` (line 196)
  | normal     -- fall through to `time.sleep(30)` and the next iteration
deriving DecidableEq, Repr

/-- The common tail of every non-`continue`, non-`break` iteration:
publish the status record (lines 497-516), optionally dump the
dashboard file (lines 518-522), and `time.sleep(30)` (line 524). -/
def tailActions (cfg : Config) : List Action :=
  [Action.publishStatus] ++
    (if cfg.dashboard_enabled then [Action.dashboardWrite] else []) ++
    [Action.sleep 30]

/-- The Managing branch (lines 249-444), entered when
`symbol in rotator_symbols_standardized or (symbol in open_symbols or
trading_allowed)` holds. -/
def manageBranch (collab : Collab) (cfg : Config) (symbol : String)
    (st : LoopState) (input : IterInput)
    (position_details : List (String × SymbolDetail))
    (best_ask_price best_bid_price : Option ℚ) :
    LoopState × List Action :=
  let five_minute_distance := input.metrics.fiveMinSpread
  let long_pos_qty := long_pos_qty_of position_details symbol
  let short_pos_qty := short_pos_qty_of position_details symbol
  let long_pos_price := long_pos_price_of position_details symbol
  let short_pos_price := short_pos_price_of position_details symbol
  let short_take_profit := input.take_profit_short
  let long_take_profit := input.take_profit_long
  -- line 323: the collaborator call receives the spread retained from
  -- the previous iteration; line 324 then overwrites that variable with
  -- the current spread.
  let calcTP := Action.computeTakeProfits short_pos_price long_pos_price
    five_minute_distance st.previous_five_minute_distance
  let st := { st with
    previous_five_minute_distance := some five_minute_distance }
  let should_short :=
    collab.short_trade_condition best_ask_price input.ma_3_high
  let should_long :=
    collab.long_trade_condition best_bid_price input.ma_3_low
  let should_add_to_short :=
    match short_pos_price with
    | some p => decide (p < input.ma_6_low) &&
        collab.short_trade_condition best_ask_price input.ma_6_high
    | none => false
  let should_add_to_long :=
    match long_pos_price with
    | some p => decide (input.ma_6_high < p) &&
        collab.long_trade_condition best_bid_price input.ma_6_low
    | none => false
  let spoof :=
    if cfg.test_orders_enabled &&
        decide (cfg.spoofing_interval ≤ input.now - st.last_cancel_time) then
      [Action.spoofingHelper]
    else []
  let long_tp_count := input.tp_order_counts.1
  let short_tp_count := input.tp_order_counts.2
  -- lines 395-402: placement gated by `placeTPGate`
  let placeLong :=
    if placeTPGate long_pos_qty long_take_profit long_tp_count then
      [Action.placeTP .long long_pos_qty long_take_profit]
    else []
  let placeShort :=
    if placeTPGate short_pos_qty short_take_profit short_tp_count then
      [Action.placeTP .short short_pos_qty short_take_profit]
    else []
  -- line 404: `current_time = datetime.now()`; lines 407-421 and
  -- 424-438: the per-side reschedule checks.  Note that
  -- `st.previous_five_minute_distance` was already overwritten above.
  let updateLongGate := decide (0 < long_pos_qty) &&
    (decide (st.next_long_tp_update ≤ input.datetime_now) &&
      long_take_profit.isSome)
  let updLongActs :=
    if updateLongGate then
      [Action.updateTPSpread .long five_minute_distance
        st.previous_five_minute_distance]
    else []
  let st :=
    if updateLongGate then
      { st with next_long_tp_update := input.long_tp_update_result }
    else st
  let updateShortGate := decide (0 < short_pos_qty) &&
    (decide (st.next_short_tp_update ≤ input.datetime_now) &&
      short_take_profit.isSome)
  let updShortActs :=
    if updateShortGate then
      [Action.updateTPSpread .short five_minute_distance
        st.previous_five_minute_distance]
    else []
  let st :=
    if updateShortGate then
      { st with next_short_tp_update := input.short_tp_update_result }
    else st
  (st,
   [Action.fetchApiData, Action.fetchPositionData, Action.initSymbol,
    Action.setLeverageLong, Action.setLeverageShort,
    Action.updateDynamicAmounts, Action.calcDynamicAmounts,
    Action.printTradeQuantities, calcTP, Action.fetchTPOrderCount] ++
   spoof ++
   [Action.entryExitEval should_long should_short should_add_to_long
      should_add_to_short,
    Action.fetchTPOrderCount] ++
   placeLong ++ placeShort ++ updLongActs ++ updShortActs ++
   [Action.cancelEntries, Action.sleep 30])

/-- The Prospecting branch (lines 446-494), whose guard is
`symbol in rotator and symbol not in open_symbols and trading_allowed`.
(Unreachable given the line-249 guard; embedded faithfully anyway.) -/
def prospectBranch (collab : Collab) (symbol : String)
    (st : LoopState) (input : IterInput)
    (position_details : List (String × SymbolDetail))
    (best_ask_price best_bid_price : Option ℚ)
    (trading_allowed : Bool) : LoopState × List Action :=
  let should_short :=
    collab.short_trade_condition best_ask_price input.ma_3_high
  let should_long :=
    collab.long_trade_condition best_bid_price input.ma_3_low
  (st,
   [Action.fetchApiData] ++
     (if trading_allowed then
       [Action.initSymbol, Action.setLeverageLong,
        Action.setLeverageShort, Action.updateDynamicAmounts,
        Action.calcDynamicAmounts, Action.fetchPositionData,
        Action.initialEntryEval should_long should_short,
        Action.sleep 10]
     else []))

/-- Lines 193-524: the part of the iteration after the equity refresh
gate. -/
def iterAfterGate (collab : Collab) (cfg : Config) (symbol : String)
    (rotator_symbols_standardized : List String) (st : LoopState)
    (input : IterInput) : LoopState × List Action × IterExit :=
  -- lines 193-196: blacklist check, `break`
  if input.blacklisted then (st, [], IterExit.broke)
  else
    let position_details := buildPositionDetails input.open_position_data
    let open_symbols := input.extracted_open_symbols.map removeSlashes
    let a := handleBestAsk st.last_known_ask symbol input.order_book
    let best_ask_price := a.1
    let b := handleBestBid st.last_known_bid symbol input.order_book
    let best_bid_price := b.1
    let st := { st with last_known_ask := a.2, last_known_bid := b.2 }
    let trading_allowed := input.trading_allowed
    let head := [Action.fundingCheck, Action.fetchPrice,
      Action.fetchOrderbook, Action.initSymbol,
      Action.fetchMovingAverages, Action.sleep 10]
    let branch :=
      -- line 249: `if symbol in rotator_symbols_standardized or
      -- (symbol in open_symbols or trading_allowed):`
      if rotator_symbols_standardized.contains symbol ||
          (open_symbols.contains symbol || trading_allowed) then
        manageBranch collab cfg symbol st input position_details
          best_ask_price best_bid_price
      -- line 446: `elif symbol in rotator_symbols_standardized and
      -- symbol not in open_symbols and trading_allowed:`
      else if rotator_symbols_standardized.contains symbol &&
          !(open_symbols.contains symbol) && trading_allowed then
        prospectBranch collab symbol st input position_details
          best_ask_price best_bid_price trading_allowed
      else (st, [])
    (branch.1, head ++ branch.2 ++ tailActions cfg, IterExit.normal)

/-- One full iteration of the `while True` loop (lines 130-524):
`current_time = time.time()`, position/order refresh, the equity
refresh gate of lines 179-191 (with the sleep-and-`continue` path when
equity is still absent after the fetch), then `iterAfterGate`. -/
def runIteration (collab : Collab) (cfg : Config) (symbol : String)
    (rotator_symbols_standardized : List String) (st : LoopState)
    (input : IterInput) : LoopState × List Action × IterExit :=
  let current_time := input.now
  let preActions := [Action.fetchOpenPositions, Action.fetchOpenOrders]
  -- line 179: `if current_time - last_equity_fetch_time >
  -- equity_refresh_interval or total_equity is None:`
  if current_time - st.last_equity_fetch_time > equity_refresh_interval ∨
      st.total_equity = none then
    let st := { st with
      total_equity := input.equity_fetch
      available_equity := input.available_fetch
      last_equity_fetch_time := current_time }
    -- line 188: `if total_equity is None: ... sleep(10); continue`
    if st.total_equity = none then
      (st, preActions ++ [Action.fetchEquity, Action.sleep 10],
       IterExit.continued)
    else
      let r := iterAfterGate collab cfg symbol
        rotator_symbols_standardized st input
      (r.1, preActions ++ [Action.fetchEquity] ++ r.2.1, r.2.2)
  else
    let r := iterAfterGate collab cfg symbol
      rotator_symbols_standardized st input
    (r.1, preActions ++ r.2.1, r.2.2)

/-- A run of successive iterations; a `break` stops the loop. -/
def runLoop (collab : Collab) (cfg : Config) (symbol : String)
    (rotator_symbols_standardized : List String) (st : LoopState) :
    List IterInput → LoopState × List Action
  | [] => (st, [])
  | input :: rest =>
      let r := runIteration collab cfg symbol rotator_symbols_standardized
        st input
      match r.2.2 with
      | IterExit.broke => (r.1, r.2.1)
      | _ =>
          let rr := runLoop collab cfg symbol rotator_symbols_standardized
            r.1 rest
          (rr.1, r.2.1 ++ rr.2)

/-- Does an action belong to the entry/exit decision collaborator call
of the Managing branch (line 352)? -/
def isEntryExitEval : Action → Bool
  | .entryExitEval _ _ _ _ => true
  | _ => false

/-- Does an action belong to the initial-entry decision collaborator
call of the Prospecting branch (line 490)? -/
def isInitialEntryEval : Action → Bool
  | .initialEntryEval _ _ => true
  | _ => false

/-- Trading actions and status publication: everything claim C9
requires to be absent from a deferred iteration. -/
def isTradeOrPublish : Action → Bool
  | .computeTakeProfits _ _ _ _ => true
  | .entryExitEval _ _ _ _ => true
  | .placeTP _ _ _ => true
  | .updateTPSpread _ _ _ => true
  | .cancelEntries => true
  | .initialEntryEval _ _ => true
  | .publishStatus => true
  | .dashboardWrite => true
  | _ => false

theorem mem_ite_singleton {α : Type} {a x : α} {c : Prop} [Decidable c] :
    (a ∈ (if c then [x] else ([] : List α))) ↔ (c ∧ a = x) := by
  split_ifs with h <;> simp [h]

/-- C9: when an equity refresh is attempted (the line-179 gate holds)
and the fetched total equity is still absent, the iteration sleeps and
restarts (`continue`): its only actions are the position/order/equity
fetches and the 10-second sleep — no branch evaluation, no order
placement or take-profit maintenance, and no status publication. -/
theorem C9_absent_equity_defers (collab : Collab) (cfg : Config)
    (symbol : String) (rotator_symbols_standardized : List String)
    (st : LoopState) (input : IterInput)
    (hgate : input.now - st.last_equity_fetch_time >
        equity_refresh_interval ∨ st.total_equity = none)
    (hfetch : input.equity_fetch = none) :
    (runIteration collab cfg symbol rotator_symbols_standardized
        st input).2.2 = IterExit.continued ∧
    (runIteration collab cfg symbol rotator_symbols_standardized
        st input).2.1 =
      [Action.fetchOpenPositions, Action.fetchOpenOrders,
       Action.fetchEquity, Action.sleep 10] ∧
    ∀ a ∈ (runIteration collab cfg symbol rotator_symbols_standardized
        st input).2.1, isTradeOrPublish a = false := by
  refine ⟨?_, ?_, ?_⟩ <;>
  · simp only [runIteration]
    rw [if_pos hgate]
    simp only [hfetch]
    simp [isTradeOrPublish]

/-- A collaborator stub for concrete evaluations. -/
def dummyCollab : Collab := ⟨fun _ _ => false, fun _ _ => false⟩

/-- A configuration stub for concrete evaluations. -/
def cfgSample : Config := ⟨false, false, 1⟩

/-- Oracle inputs of an iteration whose equity fetch fails. -/
def inputAbsentEquity : IterInput :=
  { now := 2000
    open_position_data := []
    extracted_open_symbols := []
    equity_fetch := none
    available_fetch := none
    blacklisted := false
    order_book := ⟨none, none⟩
    trading_allowed := true
    metrics := ⟨0, 0, 0, 0, "neutral", "neutral", 0, "neutral", "neutral"⟩
    ma_3_high := 0
    ma_3_low := 0
    ma_6_high := 0
    ma_6_low := 0
    take_profit_short := none
    take_profit_long := none
    tp_order_counts := (0, 0)
    datetime_now := 0
    long_tp_update_result := 0
    short_tp_update_result := 0 }

/-- C9 witness: concrete deferred iteration (never-populated equity,
failing fetch). -/
theorem C9_absent_equity_defers_witness :
    (inputAbsentEquity.now - (initLoopState 0 0).last_equity_fetch_time >
        equity_refresh_interval ∨
      (initLoopState 0 0).total_equity = none) ∧
    inputAbsentEquity.equity_fetch = none ∧
    ((runIteration dummyCollab cfgSample "BTCUSDT" ["BTCUSDT"]
        (initLoopState 0 0) inputAbsentEquity).2.2 = IterExit.continued ∧
     (runIteration dummyCollab cfgSample "BTCUSDT" ["BTCUSDT"]
        (initLoopState 0 0) inputAbsentEquity).2.1 =
       [Action.fetchOpenPositions, Action.fetchOpenOrders,
        Action.fetchEquity, Action.sleep 10] ∧
     ∀ a ∈ (runIteration dummyCollab cfgSample "BTCUSDT" ["BTCUSDT"]
        (initLoopState 0 0) inputAbsentEquity).2.1,
       isTradeOrPublish a = false) :=
  ⟨Or.inr rfl, rfl,
   C9_absent_equity_defers dummyCollab cfgSample "BTCUSDT" ["BTCUSDT"]
     (initLoopState 0 0) inputAbsentEquity (Or.inr rfl) rfl⟩

theorem fetchEquity_not_mem_manageBranch (collab : Collab) (cfg : Config)
    (symbol : String) (st : LoopState) (input : IterInput)
    (position_details : List (String × SymbolDetail))
    (best_ask_price best_bid_price : Option ℚ) :
    Action.fetchEquity ∉ (manageBranch collab cfg symbol st input
      position_details best_ask_price best_bid_price).2 := by
  simp only [manageBranch]
  simp [mem_ite_singleton]

theorem fetchEquity_not_mem_prospectBranch (collab : Collab)
    (symbol : String) (st : LoopState) (input : IterInput)
    (position_details : List (String × SymbolDetail))
    (best_ask_price best_bid_price : Option ℚ) (trading_allowed : Bool) :
    Action.fetchEquity ∉ (prospectBranch collab symbol st input
      position_details best_ask_price best_bid_price trading_allowed).2 := by
  simp only [prospectBranch]
  split_ifs <;> simp

theorem fetchEquity_not_mem_iterAfterGate (collab : Collab) (cfg : Config)
    (symbol : String) (rotator_symbols_standardized : List String)
    (st : LoopState) (input : IterInput) :
    Action.fetchEquity ∉ (iterAfterGate collab cfg symbol
      rotator_symbols_standardized st input).2.1 := by
  simp only [iterAfterGate]
  split_ifs with h1 h2 h3
  · simp
  · simp only [List.mem_append, tailActions]
    intro h
    rcases h with (h | h) | h
    · simp at h
    · exact fetchEquity_not_mem_manageBranch _ _ _ _ _ _ _ _ h
    · rcases h with (h | h) | h
      · simp at h
      · split at h <;> simp at h
      · simp at h
  · simp only [List.mem_append, tailActions]
    intro h
    rcases h with (h | h) | h
    · simp at h
    · exact fetchEquity_not_mem_prospectBranch _ _ _ _ _ _ _ _ h
    · rcases h with (h | h) | h
      · simp at h
      · split at h <;> simp at h
      · simp at h
  · simp only [List.mem_append, tailActions]
    intro h
    rcases h with (h | h) | h
    · simp at h
    · simp at h
    · rcases h with (h | h) | h
      · simp at h
      · split at h <;> simp at h
      · simp at h

theorem iterAfterGate_equity_fields (collab : Collab) (cfg : Config)
    (symbol : String) (rotator_symbols_standardized : List String)
    (st : LoopState) (input : IterInput) :
    (iterAfterGate collab cfg symbol rotator_symbols_standardized st
        input).1.total_equity = st.total_equity ∧
    (iterAfterGate collab cfg symbol rotator_symbols_standardized st
        input).1.last_equity_fetch_time = st.last_equity_fetch_time := by
  simp only [iterAfterGate, manageBranch, prospectBranch]
  split_ifs <;> simp

theorem runIteration_count_fetchEquity (collab : Collab) (cfg : Config)
    (symbol : String) (rotator_symbols_standardized : List String)
    (st : LoopState) (input : IterInput) :
    (runIteration collab cfg symbol rotator_symbols_standardized st
        input).2.1.count Action.fetchEquity =
      if input.now - st.last_equity_fetch_time > equity_refresh_interval ∨
          st.total_equity = none then 1 else 0 := by
  by_cases h : input.now - st.last_equity_fetch_time >
      equity_refresh_interval ∨ st.total_equity = none
  · rw [if_pos h]
    simp only [runIteration]
    rw [if_pos h]
    split_ifs with h2
    · rfl
    · rw [List.count_append, List.count_append]
      rw [List.count_eq_zero.mpr
        (fetchEquity_not_mem_iterAfterGate collab cfg symbol
          rotator_symbols_standardized _ input)]
      rfl
  · rw [if_neg h]
    simp only [runIteration]
    rw [if_neg h]
    rw [List.count_append]
    rw [List.count_eq_zero.mpr
      (fetchEquity_not_mem_iterAfterGate collab cfg symbol
        rotator_symbols_standardized _ input)]
    rfl

theorem runIteration_preserves_equity (collab : Collab) (cfg : Config)
    (symbol : String) (rotator_symbols_standardized : List String)
    (st : LoopState) (input : IterInput)
    (hgate : ¬(input.now - st.last_equity_fetch_time >
        equity_refresh_interval ∨ st.total_equity = none)) :
    (runIteration collab cfg symbol rotator_symbols_standardized st
        input).1.total_equity = st.total_equity ∧
    (runIteration collab cfg symbol rotator_symbols_standardized st
        input).1.last_equity_fetch_time = st.last_equity_fetch_time := by
  simp only [runIteration]
  rw [if_neg hgate]
  exact iterAfterGate_equity_fields collab cfg symbol
    rotator_symbols_standardized st input

/-- C8: the equity fetch happens in an iteration exactly when the total
equity is not yet populated or more than 1800 seconds have elapsed
since the last fetch (the action count equals 1 when the gate holds,
0 otherwise); and over any run of iterations whose times all lie within
the refresh interval of an already-populated value, no refetch occurs. -/
theorem C8_refresh_gate (collab : Collab) (cfg : Config) (symbol : String)
    (rotator_symbols_standardized : List String) (st : LoopState)
    (input : IterInput) (inputs : List IterInput) :
    ((runIteration collab cfg symbol rotator_symbols_standardized st
        input).2.1.count Action.fetchEquity =
      if st.total_equity = none ∨
          input.now - st.last_equity_fetch_time > equity_refresh_interval
        then 1 else 0) ∧
    (∀ e : ℚ, st.total_equity = some e →
      (∀ inp ∈ inputs,
        inp.now - st.last_equity_fetch_time ≤ equity_refresh_interval) →
      (runLoop collab cfg symbol rotator_symbols_standardized st
        inputs).2.count Action.fetchEquity = 0) := by
  constructor
  · rw [runIteration_count_fetchEquity]
    by_cases hA : st.total_equity = none <;>
      by_cases hB : input.now - st.last_equity_fetch_time >
        equity_refresh_interval <;>
      simp [hA, hB]
  · intro e he hall
    induction inputs generalizing st with
    | nil => simp [runLoop]
    | cons inp rest ih =>
        have hgate : ¬(inp.now - st.last_equity_fetch_time >
            equity_refresh_interval ∨ st.total_equity = none) := by
          rintro (h | h)
          · exact absurd (hall inp (List.mem_cons_self inp rest)) (not_le.mpr h)
          · rw [he] at h; exact Option.noConfusion h
        have hcount : (runIteration collab cfg symbol
            rotator_symbols_standardized st inp).2.1.count
              Action.fetchEquity = 0 := by
          rw [runIteration_count_fetchEquity, if_neg hgate]
        have hpres := runIteration_preserves_equity collab cfg symbol
          rotator_symbols_standardized st inp hgate
        simp only [runLoop]
        cases hexit : (runIteration collab cfg symbol
            rotator_symbols_standardized st inp).2.2 with
        | broke => simpa using hcount
        | continued =>
            rw [List.count_append, hcount]
            rw [ih _ (hpres.1.trans he)
              (fun i hi => by
                rw [hpres.2]
                exact hall i (List.mem_cons_of_mem inp hi))]
        | normal =>
            rw [List.count_append, hcount]
            rw [ih _ (hpres.1.trans he)
              (fun i hi => by
                rw [hpres.2]
                exact hall i (List.mem_cons_of_mem inp hi))]

/-- A loop state with populated equity, last fetched at time 0. -/
def stPopulated : LoopState :=
  { initLoopState 5 7 with
    total_equity := some 1000
    available_equity := some 900 }

/-- An iteration 100 seconds after the last fetch (within the 1800 s
interval), with a successful would-be fetch. -/
def inputWithin : IterInput :=
  { inputAbsentEquity with
    now := 100
    equity_fetch := some 1000
    available_fetch := some 900 }

/-- C8 witness: with populated equity and one iteration 100 s after the
last fetch, no refetch occurs. -/
theorem C8_refresh_gate_witness :
    stPopulated.total_equity = some 1000 ∧
    (∀ inp ∈ [inputWithin],
      inp.now - stPopulated.last_equity_fetch_time ≤
        equity_refresh_interval) ∧
    (runLoop dummyCollab cfgSample "BTCUSDT" ["BTCUSDT"] stPopulated
      [inputWithin]).2.count Action.fetchEquity = 0 :=
  ⟨rfl,
   by
     intro inp hinp
     simp only [List.mem_singleton] at hinp
     subst hinp
     norm_num [inputWithin, inputAbsentEquity, stPopulated, initLoopState,
       equity_refresh_interval],
   (C8_refresh_gate dummyCollab cfgSample "BTCUSDT" ["BTCUSDT"]
     stPopulated inputWithin [inputWithin]).2 1000 rfl
     (by
       intro inp hinp
       simp only [List.mem_singleton] at hinp
       subst hinp
       norm_num [inputWithin, inputAbsentEquity, stPopulated, initLoopState,
         equity_refresh_interval])⟩

theorem manageBranch_updateTP_iff (collab : Collab) (cfg : Config)
    (symbol : String) (st : LoopState) (input : IterInput)
    (pd : List (String × SymbolDetail)) (ba bb : Option ℚ)
    (side : PositionSide) (five : ℚ) (prev : Option ℚ) :
    Action.updateTPSpread side five prev ∈
      (manageBranch collab cfg symbol st input pd ba bb).2 ↔
    (five = input.metrics.fiveMinSpread ∧
     prev = some input.metrics.fiveMinSpread ∧
     ((side = PositionSide.long ∧ 0 < long_pos_qty_of pd symbol ∧
        st.next_long_tp_update ≤ input.datetime_now ∧
        input.take_profit_long ≠ none) ∨
      (side = PositionSide.short ∧ 0 < short_pos_qty_of pd symbol ∧
        st.next_short_tp_update ≤ input.datetime_now ∧
        input.take_profit_short ≠ none))) := by
  simp only [manageBranch, List.mem_append, List.mem_cons,
    List.not_mem_nil, mem_ite_singleton,
    apply_ite LoopState.next_short_tp_update,
    apply_ite LoopState.previous_five_minute_distance, ite_self]
  cases side <;>
    simp [Option.isSome_iff_ne_none, and_assoc,
      apply_ite LoopState.previous_five_minute_distance, ite_self] <;>
    tauto

theorem runIteration_updateTP_iff (collab : Collab) (cfg : Config)
    (symbol : String) (rotator_symbols_standardized : List String)
    (st : LoopState) (input : IterInput)
    (hgate : ¬(input.now - st.last_equity_fetch_time >
        equity_refresh_interval ∨ st.total_equity = none))
    (hbl : input.blacklisted = false)
    (hbranch : (rotator_symbols_standardized.contains symbol ||
        ((input.extracted_open_symbols.map removeSlashes).contains symbol ||
          input.trading_allowed)) = true)
    (side : PositionSide) (five : ℚ) (prev : Option ℚ) :
    Action.updateTPSpread side five prev ∈
      (runIteration collab cfg symbol rotator_symbols_standardized st
        input).2.1 ↔
    (five = input.metrics.fiveMinSpread ∧
     prev = some input.metrics.fiveMinSpread ∧
     ((side = PositionSide.long ∧
        0 < long_pos_qty_of
          (buildPositionDetails input.open_position_data) symbol ∧
        st.next_long_tp_update ≤ input.datetime_now ∧
        input.take_profit_long ≠ none) ∨
      (side = PositionSide.short ∧
        0 < short_pos_qty_of
          (buildPositionDetails input.open_position_data) symbol ∧
        st.next_short_tp_update ≤ input.datetime_now ∧
        input.take_profit_short ≠ none))) := by
  simp only [runIteration]
  rw [if_neg hgate]
  simp only [iterAfterGate]
  rw [if_neg (show ¬(input.blacklisted = true) by simp [hbl])]
  rw [if_pos hbranch]
  simp only [List.mem_append, List.mem_cons, List.not_mem_nil,
    manageBranch_updateTP_iff, tailActions, mem_ite_singleton]
  simp

/-- C5 (amended): in a Managing-branch iteration, the take-profit
reschedule for a side is invoked exactly when that side has positive
quantity, the wall clock has reached that side's next-update time, and
a non-null target exists; the spread-movement comparison receives the
CURRENT iteration's five-minute spread as BOTH the current and the
previous value, because line 324 overwrites the retained
previous-iteration spread before the reschedule calls of lines
404-438. -/
theorem C5_reschedule_gate_and_spread (collab : Collab) (cfg : Config)
    (symbol : String) (rotator_symbols_standardized : List String)
    (st : LoopState) (input : IterInput)
    (hgate : ¬(input.now - st.last_equity_fetch_time >
        equity_refresh_interval ∨ st.total_equity = none))
    (hbl : input.blacklisted = false)
    (hbranch : (rotator_symbols_standardized.contains symbol ||
        ((input.extracted_open_symbols.map removeSlashes).contains symbol ||
          input.trading_allowed)) = true)
    (side : PositionSide) (five : ℚ) (prev : Option ℚ) :
    Action.updateTPSpread side five prev ∈
      (runIteration collab cfg symbol rotator_symbols_standardized st
        input).2.1 ↔
    (five = input.metrics.fiveMinSpread ∧
     prev = some input.metrics.fiveMinSpread ∧
     ((side = PositionSide.long ∧
        0 < long_pos_qty_of
          (buildPositionDetails input.open_position_data) symbol ∧
        st.next_long_tp_update ≤ input.datetime_now ∧
        input.take_profit_long ≠ none) ∨
      (side = PositionSide.short ∧
        0 < short_pos_qty_of
          (buildPositionDetails input.open_position_data) symbol ∧
        st.next_short_tp_update ≤ input.datetime_now ∧
        input.take_profit_short ≠ none))) :=
  runIteration_updateTP_iff collab cfg symbol rotator_symbols_standardized
    st input hgate hbl hbranch side five prev

/-- Loop state retaining a previous-iteration five-minute spread of 3,
with populated equity. -/
def stPrev3 : LoopState :=
  { stPopulated with previous_five_minute_distance := some 3 }

/-- An iteration whose metrics report a five-minute spread of 5, with a
long position of quantity 1 and a long take-profit target due for
rescheduling. -/
def inputSpread5 : IterInput :=
  { inputAbsentEquity with
    now := 100
    equity_fetch := some 1000
    open_position_data := [⟨"BTCUSDT", some 1, some "buy", some 100⟩]
    metrics := ⟨0, 0, 0, 5, "up", "n", 0, "n", "n"⟩
    take_profit_long := some 105
    datetime_now := 10 }

theorem stPrev3_gate :
    ¬(inputSpread5.now - stPrev3.last_equity_fetch_time >
        equity_refresh_interval ∨ stPrev3.total_equity = none) := by
  rintro (h | h)
  · norm_num [inputSpread5, inputAbsentEquity, stPrev3, stPopulated,
      initLoopState, equity_refresh_interval] at h
  · simp [stPrev3, stPopulated, initLoopState] at h

theorem inputSpread5_long_qty :
    long_pos_qty_of (buildPositionDetails inputSpread5.open_position_data)
      "BTCUSDT" = 1 := by
  norm_num [inputSpread5, inputAbsentEquity, buildPositionDetails,
    positionDetailsStep, positionSymbolOf, pyLower, freshSymbolDetail,
    detailsFind, detailsModify, long_pos_qty_of]
  decide

/-- C5 counterexample: with a retained previous-iteration spread of 3
and a current spread of 5, the reschedule fires with BOTH spread
arguments equal to 5 — the call receiving the retained value 3 as its
previous-spread argument, which the claim asserts, never happens. -/
theorem C5_counterexample :
    stPrev3.previous_five_minute_distance = some 3 ∧
    inputSpread5.metrics.fiveMinSpread = 5 ∧
    Action.updateTPSpread PositionSide.long 5 (some 5) ∈
      (runIteration dummyCollab cfgSample "BTCUSDT" ["BTCUSDT"] stPrev3
        inputSpread5).2.1 ∧
    Action.updateTPSpread PositionSide.long 5 (some 3) ∉
      (runIteration dummyCollab cfgSample "BTCUSDT" ["BTCUSDT"] stPrev3
        inputSpread5).2.1 := by
  refine ⟨rfl, rfl, ?_, ?_⟩
  · exact (runIteration_updateTP_iff dummyCollab cfgSample "BTCUSDT"
      ["BTCUSDT"] stPrev3 inputSpread5 stPrev3_gate rfl rfl
      PositionSide.long 5 (some 5)).mpr
      ⟨rfl, rfl, Or.inl ⟨rfl,
        by rw [inputSpread5_long_qty]; norm_num,
        by norm_num [stPrev3, stPopulated, initLoopState, inputSpread5,
          inputAbsentEquity],
        by simp [inputSpread5]⟩⟩
  · intro hmem
    have h := (runIteration_updateTP_iff dummyCollab cfgSample "BTCUSDT"
      ["BTCUSDT"] stPrev3 inputSpread5 stPrev3_gate rfl rfl
      PositionSide.long 5 (some 3)).mp hmem
    have h2 := h.2.1
    simp [inputSpread5, inputAbsentEquity] at h2

/-- C5 witness: the amended characterization at the concrete scenario:
the long-side reschedule fires with current spread 5 as both
arguments. -/
theorem C5_reschedule_gate_and_spread_witness :
    Action.updateTPSpread PositionSide.long 5 (some 5) ∈
      (runIteration dummyCollab cfgSample "BTCUSDT" ["BTCUSDT"] stPrev3
        inputSpread5).2.1 :=
  (C5_reschedule_gate_and_spread dummyCollab cfgSample "BTCUSDT"
    ["BTCUSDT"] stPrev3 inputSpread5 stPrev3_gate rfl rfl
    PositionSide.long 5 (some 5)).mpr
    ⟨rfl, rfl, Or.inl ⟨rfl,
      by rw [inputSpread5_long_qty]; norm_num,
      by norm_num [stPrev3, stPopulated, initLoopState, inputSpread5,
        inputAbsentEquity],
      by simp [inputSpread5]⟩⟩

theorem initialEntry_not_mem_manageBranch (collab : Collab) (cfg : Config)
    (symbol : String) (st : LoopState) (input : IterInput)
    (pd : List (String × SymbolDetail)) (ba bb : Option ℚ)
    (sl ss : Bool) :
    Action.initialEntryEval sl ss ∉
      (manageBranch collab cfg symbol st input pd ba bb).2 := by
  simp only [manageBranch]
  simp [mem_ite_singleton]

theorem initialEntry_not_mem_iterAfterGate (collab : Collab) (cfg : Config)
    (symbol : String) (rotator_symbols_standardized : List String)
    (st : LoopState) (input : IterInput) (sl ss : Bool) :
    Action.initialEntryEval sl ss ∉
      (iterAfterGate collab cfg symbol rotator_symbols_standardized st
        input).2.1 := by
  simp only [iterAfterGate]
  split_ifs with h1 h2 h3
  · simp
  · simp only [List.mem_append, tailActions]
    rintro ((h | h) | h)
    · simp at h
    · exact initialEntry_not_mem_manageBranch _ _ _ _ _ _ _ _ _ _ h
    · rcases h with (h | h) | h
      · simp at h
      · split at h <;> simp at h
      · simp at h
  · -- the Prospecting `elif` guard implies the line-249 guard, so this
    -- branch is unreachable
    exfalso
    apply h2
    simp only [Bool.and_eq_true] at h3
    simp only [Bool.or_eq_true]
    exact Or.inl h3.1.1
  · simp only [List.mem_append, tailActions]
    rintro ((h | h) | h)
    · simp at h
    · simp at h
    · rcases h with (h | h) | h
      · simp at h
      · split at h <;> simp at h
      · simp at h

theorem initialEntry_not_mem_runIteration (collab : Collab) (cfg : Config)
    (symbol : String) (rotator_symbols_standardized : List String)
    (st : LoopState) (input : IterInput) (sl ss : Bool) :
    Action.initialEntryEval sl ss ∉
      (runIteration collab cfg symbol rotator_symbols_standardized st
        input).2.1 := by
  simp only [runIteration]
  split_ifs with h1 h2
  · simp
  · simp only [List.mem_append]
    rintro ((h | h) | h)
    · simp at h
    · simp at h
    · exact initialEntry_not_mem_iterAfterGate _ _ _ _ _ _ _ _ h
  · simp only [List.mem_append]
    rintro (h | h)
    · simp at h
    · exact initialEntry_not_mem_iterAfterGate _ _ _ _ _ _ _ _ h

/-- Oracle inputs of the claim's scenario: `BTCUSDT` in the rotation
list, no open exposure anywhere, new-symbol trading allowed, populated
equity, not blacklisted. -/
def inputProspect : IterInput :=
  { inputAbsentEquity with
    now := 100
    equity_fetch := some 1000
    available_fetch := some 900
    trading_allowed := true }

/-- C2 (code bug): in the scenario in which the spec's Prospecting
branch should run — symbol in the rotation list, no open exposure,
within the concurrent-symbol budget — the line-249 `or`-guard sends the
iteration into the Managing branch: the entry/exit evaluator (with its
add-to-position evaluation) runs and the initial-entry evaluator does
not; indeed the initial-entry evaluator is unreachable on every input,
because the line-446 `elif` guard implies the line-249 guard. -/
theorem C2_managing_swallows_prospecting :
    ((runIteration dummyCollab cfgSample "BTCUSDT" ["BTCUSDT"]
        stPopulated inputProspect).2.1.any isEntryExitEval = true) ∧
    (∀ (collab : Collab) (cfg : Config) (symbol : String)
        (rotator_symbols_standardized : List String) (st : LoopState)
        (input : IterInput) (sl ss : Bool),
      Action.initialEntryEval sl ss ∉
        (runIteration collab cfg symbol rotator_symbols_standardized st
          input).2.1) := by
  constructor
  · have hgate : ¬(inputProspect.now - stPopulated.last_equity_fetch_time >
        equity_refresh_interval ∨ stPopulated.total_equity = none) := by
      rintro (h | h)
      · norm_num [inputProspect, inputAbsentEquity, stPopulated,
          initLoopState, equity_refresh_interval] at h
      · simp [stPopulated, initLoopState] at h
    simp only [runIteration]
    rw [if_neg hgate]
    simp only [iterAfterGate]
    rw [if_neg (show ¬(inputProspect.blacklisted = true) by decide)]
    rw [if_pos (show (List.contains ["BTCUSDT"] "BTCUSDT" ||
      ((inputProspect.extracted_open_symbols.map removeSlashes).contains
          "BTCUSDT" ||
        inputProspect.trading_allowed)) = true by decide)]
    simp only [manageBranch, tailActions]
    simp [isEntryExitEval, List.any_append]
  · exact initialEntry_not_mem_runIteration

end BybitQS
